import Mathlib

/-!
Shallow embedding of `calibrate_extrinsics.py`, a batch utility that loads
per-camera intrinsics and 3D/2D point observations from two JSON documents,
solves a PnP pose per camera via OpenCV, and writes a JSON report.

Modelling choices:
* Parsed JSON documents are association lists (Python dicts preserve
  insertion order, so an ordered list of key/value pairs is the faithful
  model); optional JSON fields are `Option`s, so a missing field surfaces
  as the `KeyError` branch exactly where Python would raise.
* NumPy arrays are a dtype tag (`f32`/`f64`) plus exact rational payload;
  none of the verified properties depends on rounding, only on which dtype
  each array is created with, which the code states explicitly
  (`dtype=np.float32` in the loader, `np.identity(4, dtype=np.float64)`).
* `ndarray.tolist()` produces Python floats, i.e. IEEE binary64 values,
  regardless of the array dtype; `tolist` therefore tags every element f64.
* OpenCV (`cv2.solvePnP`, `cv2.Rodrigues`) is an external collaborator: it
  is a parameter (`CV2`) whose calls may fail with an exception
  (`Except String`), matching `cv2.error` being raisable. NumPy slice
  assignment with a shape-incompatible right-hand side raises, so the 4x4
  assembly checks the shapes and fails like NumPy would otherwise.
* Exceptions are `Except String`; `main` wrapping the per-camera solve in
  `try/except Exception` becomes a `match` converting `Except.error` into
  an error entry of the result mapping.
-/

namespace CalibrateExtrinsics

/-- NumPy dtype tags that occur in the program. -/
inductive Dtype : Type where
  | f32
  | f64
  deriving DecidableEq

/-- A Python numeric scalar as it appears in serialized output: the value
together with the width of its floating representation. -/
structure Scalar where
  dtype : Dtype
  val : ℚ
  deriving DecidableEq

/-- A 2-D NumPy array: one dtype for the whole buffer, rows of values. -/
structure NpMat where
  dtype : Dtype
  rows : List (List ℚ)
  deriving DecidableEq

/-- A 1-D NumPy array. -/
structure NpVec where
  dtype : Dtype
  data : List ℚ
  deriving DecidableEq

/-- `ndarray.tolist()` on a 2-D array: Python floats are IEEE binary64,
so every element of the resulting plain list is tagged `f64`. -/
def NpMat.tolist (m : NpMat) : List (List Scalar) :=
  m.rows.map (fun r => r.map (fun v => ⟨Dtype.f64, v⟩))

/-- `ndarray.tolist()` on a 1-D array. -/
def NpVec.tolist (v : NpVec) : List Scalar :=
  v.data.map (fun x => ⟨Dtype.f64, x⟩)

/-- `ndarray.flatten()` on a 2-D array (used on the 3x1 `rvec`/`tvec`). -/
def NpMat.flatten (m : NpMat) : NpVec :=
  ⟨m.dtype, m.rows.flatten⟩

/-- `ndarray.shape[0]` of a 2-D array built from a nested list. -/
def NpMat.shape0 (m : NpMat) : Nat :=
  m.rows.length

/-- One entry of the intrinsics document: the `K` and `distortion` fields,
each possibly missing (accessing a missing field raises `KeyError`). -/
structure IntrEntry where
  K : Option (List (List ℚ))
  distortion : Option (List ℚ)
  deriving DecidableEq

/-- One entry of the observations document under `cameras`. -/
structure ObsEntry where
  points_3d : Option (List (List ℚ))
  points_2d : Option (List (List ℚ))
  deriving DecidableEq

/-- The intrinsics document: a JSON object mapping camera id to entry. -/
abbrev IntrDoc := List (String × IntrEntry)

/-- The observations document: the top-level `cameras` key is optional,
`observations_data.get('cameras', {})` defaults it to an empty object. -/
structure ObsDoc where
  cameras : Option (List (String × ObsEntry))
  deriving DecidableEq

/-- What opening and JSON-parsing one input file can yield: the file may be
absent (`FileNotFoundError`), hold invalid JSON (`json.JSONDecodeError`),
or parse to a document. -/
inductive JsonFile (α : Type) : Type where
  | absent
  | invalidJson
  | parsed (doc : α)
  deriving DecidableEq

/-- Python dict lookup `d[k]` / containment, on the association-list model:
the first binding of the key (JSON-parsed dicts bind each key once). -/
def dictLookup {β : Type} : List (String × β) → String → Option β
  | [], _ => none
  | (k, v) :: rest, c => if k = c then some v else dictLookup rest c

/-- The structured per-camera record built by the loader. -/
structure CameraData where
  K : NpMat
  dist : NpVec
  points_3d : NpMat
  points_2d : NpMat
  deriving DecidableEq

/-- One iteration of the loader loop body for camera `cam_id`:
`Except.ok none` means the camera is skipped (missing intrinsics, or 3D/2D
point-count mismatch, in which case the freshly inserted entry is deleted);
`Except.ok (some entry)` means it stays in `structured_data`;
`Except.error` is an uncaught `KeyError` from a missing field. -/
def loadOne (intrinsics_data : IntrDoc) (cam_id : String) (obs_data : ObsEntry) :
    Except String (Option CameraData) :=
  match dictLookup intrinsics_data cam_id with
  | none => Except.ok none
  | some int_data =>
    match int_data.K, int_data.distortion, obs_data.points_3d, obs_data.points_2d with
    | none, _, _, _ => Except.error "KeyError: K"
    | some _, none, _, _ => Except.error "KeyError: distortion"
    | some _, some _, none, _ => Except.error "KeyError: points_3d"
    | some _, some _, some _, none => Except.error "KeyError: points_2d"
    | some kArr, some distArr, some p3, some p2 =>
      let entry : CameraData :=
        { K := ⟨Dtype.f32, kArr⟩
          dist := ⟨Dtype.f32, distArr⟩
          points_3d := ⟨Dtype.f32, p3⟩
          points_2d := ⟨Dtype.f32, p2⟩ }
      if entry.points_3d.shape0 ≠ entry.points_2d.shape0 then
        Except.ok none
      else
        Except.ok (some entry)

/-- The loader loop over the entries of the observations `cameras` object,
in document key order, building `structured_data` in insertion order. -/
def loadCameras (intrinsics_data : IntrDoc) :
    List (String × ObsEntry) → Except String (List (String × CameraData))
  | [] => Except.ok []
  | (cam_id, obs_data) :: rest =>
    match loadOne intrinsics_data cam_id obs_data with
    | Except.error e => Except.error e
    | Except.ok none => loadCameras intrinsics_data rest
    | Except.ok (some entry) =>
      match loadCameras intrinsics_data rest with
      | Except.error e => Except.error e
      | Except.ok l => Except.ok ((cam_id, entry) :: l)

/-- `load_calibration_data`: a missing file or invalid JSON in either file is
caught and yields an empty mapping; otherwise the observation cameras are
structured (a `KeyError` from a missing field propagates as `Except.error`). -/
def load_calibration_data (fIntr : JsonFile IntrDoc) (fObs : JsonFile ObsDoc) :
    Except String (List (String × CameraData)) :=
  match fIntr, fObs with
  | JsonFile.parsed intrinsics_data, JsonFile.parsed observations_data =>
    loadCameras intrinsics_data (observations_data.cameras.getD [])
  | _, _ => Except.ok []

/-- The `flags` argument of `cv2.solvePnP`. -/
inductive PnPFlag : Type where
  | SOLVEPNP_ITERATIVE
  | SOLVEPNP_EPNP
  | SOLVEPNP_P3P
  deriving DecidableEq

/-- The OpenCV routines the solver calls, as an external collaborator.
`solvePnP` returns a success flag with `rvec`/`tvec` (3x1 arrays), and
`rodrigues` a rotation matrix; either call may raise. -/
structure CV2 where
  solvePnP : NpMat → NpMat → NpMat → NpVec → PnPFlag →
    Except String (Bool × NpMat × NpMat)
  rodrigues : NpMat → Except String NpMat

/-- The result dictionary of a successful solve: four plain lists. -/
structure ExtrinsicsResult where
  rotation_matrix_R : List (List Scalar)
  translation_vector_t : List Scalar
  T_homogeneous_matrix_4x4 : List (List Scalar)
  R_Rodrigues_vector : List Scalar
  deriving DecidableEq

/-- `np.identity(4, dtype=np.float64)`. -/
def identity4 : NpMat :=
  ⟨Dtype.f64, [[1, 0, 0, 0], [0, 1, 0, 0], [0, 0, 1, 0], [0, 0, 0, 1]]⟩

/-- Slice assignment `T[:3,:3] = R` on the row lists: positions `(i, j)`
with `i < 3`, `j < 3` take the value of `R`, all others are kept. -/
def setTopLeft3x3 (T R : List (List ℚ)) : List (List ℚ) :=
  List.mapIdx (fun i row =>
    if i < 3 then
      List.mapIdx (fun j x => if j < 3 then (R.getD i []).getD j x else x) row
    else row) T

/-- Slice assignment `T[:3,3] = t` on the row lists. -/
def setTopRightCol (T : List (List ℚ)) (t : List ℚ) : List (List ℚ) :=
  List.mapIdx (fun i row => if i < 3 then row.set 3 (t.getD i 0) else row) T

/-- `did R have the 3x3 shape slice assignment needs?` -/
def is3x3 (rows : List (List ℚ)) : Bool :=
  rows.length == 3 && rows.all (fun r => r.length == 3)

/-- Assembly of the homogeneous transform: start from `identity4` (so the
buffer dtype is f64) and perform the two slice assignments in place. -/
def assembleT (R_matrix : NpMat) (tflat : NpVec) : NpMat :=
  ⟨identity4.dtype, setTopRightCol (setTopLeft3x3 identity4.rows R_matrix.rows) tflat.data⟩

/-- `calculate_extrinsics`: solve PnP with the iterative flag, raise
`RuntimeError` on non-convergence, convert `rvec` via Rodrigues, assemble
the 4x4 homogeneous matrix, and return the four list representations. -/
def calculate_extrinsics (cv : CV2) (camera_data : CameraData) :
    Except String ExtrinsicsResult :=
  match cv.solvePnP camera_data.points_3d camera_data.points_2d camera_data.K
      camera_data.dist PnPFlag.SOLVEPNP_ITERATIVE with
  | Except.error e => Except.error e
  | Except.ok (success, rvec, tvec) =>
    if success then
      match cv.rodrigues rvec with
      | Except.error e => Except.error e
      | Except.ok R_matrix =>
        if is3x3 R_matrix.rows && tvec.flatten.data.length == 3 then
          let T_matrix := assembleT R_matrix tvec.flatten
          Except.ok
            { rotation_matrix_R := R_matrix.tolist
              translation_vector_t := tvec.flatten.tolist
              T_homogeneous_matrix_4x4 := T_matrix.tolist
              R_Rodrigues_vector := rvec.flatten.tolist }
        else
          Except.error "ValueError: could not broadcast input array"
    else
      Except.error "cv2.solvePnP failed to converge."

/-- A per-camera entry of the output document. -/
inductive CamResult : Type where
  | ok (res : ExtrinsicsResult)
  | err (msg : String)
  deriving DecidableEq

/-- The output document `{"cameras": {...}}`. -/
structure OutputDoc where
  cameras : List (String × CamResult)
  deriving DecidableEq

/-- The body of the per-camera loop in `main`: `try`/`except Exception`
turns a raised exception into an `{"error": str(e)}` entry. -/
def solveOne (cv : CV2) (cam_id : String) (cam_data : CameraData) :
    String × CamResult :=
  match calculate_extrinsics cv cam_data with
  | Except.ok extrinsics => (cam_id, CamResult.ok extrinsics)
  | Except.error e => (cam_id, CamResult.err e)

/-- `main`: load, exit early (`Except.ok none`, no output file) when nothing
loaded, otherwise solve every camera and write the report
(`Except.ok (some out)`); an exception escaping the loader, which is not
wrapped in any `try`, aborts the run (`Except.error`). -/
def main (cv : CV2) (fIntr : JsonFile IntrDoc) (fObs : JsonFile ObsDoc) :
    Except String (Option OutputDoc) :=
  match load_calibration_data fIntr fObs with
  | Except.error e => Except.error e
  | Except.ok all_camera_data =>
    if all_camera_data.isEmpty then
      Except.ok none
    else
      Except.ok (some ⟨all_camera_data.map (fun p => solveOne cv p.1 p.2)⟩)

/-! Concrete documents and solver instances used to exercise the theorems
on closed inputs (the documents follow the example scenario of the spec). -/

/-- Example intrinsics document with one camera. -/
def intr0 : IntrDoc :=
  [("cam1", { K := some [[800, 0, 320], [0, 800, 240], [0, 0, 1]]
              distortion := some [0, 0, 0, 0, 0] })]

/-- Example observation entries: four 3D/2D correspondences for `cam1`. -/
def oc0 : List (String × ObsEntry) :=
  [("cam1", { points_3d := some [[0, 0, 0], [1, 0, 0], [0, 1, 0], [0, 0, 1]]
              points_2d := some [[320, 240], [1120, 240], [320, 560], [320, 240]] })]

/-- Example observations document. -/
def obs0 : ObsDoc := ⟨some oc0⟩

/-- The structured record the loader builds for `cam1` from the example. -/
def cd1 : CameraData :=
  { K := ⟨Dtype.f32, [[800, 0, 320], [0, 800, 240], [0, 0, 1]]⟩
    dist := ⟨Dtype.f32, [0, 0, 0, 0, 0]⟩
    points_3d := ⟨Dtype.f32, [[0, 0, 0], [1, 0, 0], [0, 1, 0], [0, 0, 1]]⟩
    points_2d := ⟨Dtype.f32, [[320, 240], [1120, 240], [320, 560], [320, 240]]⟩ }

/-- The loaded mapping for the example pair of documents. -/
def acd0 : List (String × CameraData) := [("cam1", cd1)]

/-- An OpenCV instance that always converges, with rvec = 0 (identity
rotation) and tvec = (5, 6, 7). -/
def cvOk : CV2 :=
  { solvePnP := fun _ _ _ _ _ =>
      Except.ok (true, ⟨Dtype.f64, [[0], [0], [0]]⟩, ⟨Dtype.f64, [[5], [6], [7]]⟩)
    rodrigues := fun _ =>
      Except.ok ⟨Dtype.f64, [[1, 0, 0], [0, 1, 0], [0, 0, 1]]⟩ }

/-- An OpenCV instance whose PnP solve reports non-convergence. -/
def cvFail : CV2 :=
  { solvePnP := fun _ _ _ _ _ =>
      Except.ok (false, ⟨Dtype.f64, [[0], [0], [0]]⟩, ⟨Dtype.f64, [[0], [0], [0]]⟩)
    rodrigues := fun _ =>
      Except.ok ⟨Dtype.f64, [[1, 0, 0], [0, 1, 0], [0, 0, 1]]⟩ }

/-- The result `calculate_extrinsics cvOk cd1` evaluates to. -/
def res1 : ExtrinsicsResult :=
  { rotation_matrix_R :=
      [[⟨Dtype.f64, 1⟩, ⟨Dtype.f64, 0⟩, ⟨Dtype.f64, 0⟩],
       [⟨Dtype.f64, 0⟩, ⟨Dtype.f64, 1⟩, ⟨Dtype.f64, 0⟩],
       [⟨Dtype.f64, 0⟩, ⟨Dtype.f64, 0⟩, ⟨Dtype.f64, 1⟩]]
    translation_vector_t := [⟨Dtype.f64, 5⟩, ⟨Dtype.f64, 6⟩, ⟨Dtype.f64, 7⟩]
    T_homogeneous_matrix_4x4 :=
      [[⟨Dtype.f64, 1⟩, ⟨Dtype.f64, 0⟩, ⟨Dtype.f64, 0⟩, ⟨Dtype.f64, 5⟩],
       [⟨Dtype.f64, 0⟩, ⟨Dtype.f64, 1⟩, ⟨Dtype.f64, 0⟩, ⟨Dtype.f64, 6⟩],
       [⟨Dtype.f64, 0⟩, ⟨Dtype.f64, 0⟩, ⟨Dtype.f64, 1⟩, ⟨Dtype.f64, 7⟩],
       [⟨Dtype.f64, 0⟩, ⟨Dtype.f64, 0⟩, ⟨Dtype.f64, 0⟩, ⟨Dtype.f64, 1⟩]]
    R_Rodrigues_vector := [⟨Dtype.f64, 0⟩, ⟨Dtype.f64, 0⟩, ⟨Dtype.f64, 0⟩] }

/-- The output document for the example run under `cvOk`. -/
def out1 : OutputDoc := ⟨[("cam1", CamResult.ok res1)]⟩

/-- Observations document that parses but has no top-level `cameras` key. -/
def obsNone : ObsDoc := ⟨none⟩

/-- Two-camera intrinsics document: `cam1` as in `intr0`, plus `cam2`. -/
def intr2 : IntrDoc :=
  intr0 ++ [("cam2", { K := some [[1, 0, 0], [0, 1, 0], [0, 0, 1]]
                       distortion := some [0] })]

/-- Two-camera observation entries: `cam1` as in `oc0`, plus a one-point
`cam2`. -/
def oc2 : List (String × ObsEntry) :=
  oc0 ++ [("cam2", { points_3d := some [[9, 9, 9]], points_2d := some [[9, 9]] })]

/-- Two-camera observations document. -/
def obs2 : ObsDoc := ⟨some oc2⟩

/-- The structured record the loader builds for `cam2`. -/
def cd2 : CameraData :=
  { K := ⟨Dtype.f32, [[1, 0, 0], [0, 1, 0], [0, 0, 1]]⟩
    dist := ⟨Dtype.f32, [0]⟩
    points_3d := ⟨Dtype.f32, [[9, 9, 9]]⟩
    points_2d := ⟨Dtype.f32, [[9, 9]]⟩ }

/-- The loaded mapping for the two-camera documents. -/
def acd2 : List (String × CameraData) := [("cam1", cd1), ("cam2", cd2)]

/-- An OpenCV instance that converges on `cam1`'s four points but reports
non-convergence on `cam2`'s single point, exercising partial failure. -/
def cvSel : CV2 :=
  { solvePnP := fun object_points _ _ _ _ =>
      if object_points.rows.length == 1 then
        Except.ok (false, ⟨Dtype.f64, [[0], [0], [0]]⟩, ⟨Dtype.f64, [[0], [0], [0]]⟩)
      else
        Except.ok (true, ⟨Dtype.f64, [[0], [0], [0]]⟩, ⟨Dtype.f64, [[5], [6], [7]]⟩)
    rodrigues := fun _ =>
      Except.ok ⟨Dtype.f64, [[1, 0, 0], [0, 1, 0], [0, 0, 1]]⟩ }

/-- Intrinsics document whose `cam1` entry is missing its `K` field. -/
def intrNoK : IntrDoc := [("cam1", { K := none, distortion := some [0] })]

/-- Intrinsics document whose `cam1` entry is missing `distortion`. -/
def intrNoDist : IntrDoc := [("cam1", { K := some [[1]], distortion := none })]

/-- Observations document whose `cam1` entry is missing `points_3d`. -/
def obsNoP3 : ObsDoc :=
  ⟨some [("cam1", { points_3d := none, points_2d := some [[0, 0]] })]⟩

/-- Observations document whose `cam1` entry is missing `points_2d`. -/
def obsNoP2 : ObsDoc :=
  ⟨some [("cam1", { points_3d := some [[0, 0, 0]], points_2d := none })]⟩

/-! Helper lemmas about the loader. -/

/-- `loadOne` keeps a camera exactly when its intrinsics are found, all four
fields are present, and the 3D/2D point counts agree; the kept record is the
four freshly built float32 arrays. -/
theorem loadOne_ok_some_iff (intrinsics_data : IntrDoc) (cam_id : String)
    (obs_data : ObsEntry) (cd : CameraData) :
    loadOne intrinsics_data cam_id obs_data = Except.ok (some cd) ↔
      ∃ int_data kArr distArr p3 p2,
        dictLookup intrinsics_data cam_id = some int_data ∧
        int_data.K = some kArr ∧ int_data.distortion = some distArr ∧
        obs_data.points_3d = some p3 ∧ obs_data.points_2d = some p2 ∧
        p3.length = p2.length ∧
        cd = ⟨⟨Dtype.f32, kArr⟩, ⟨Dtype.f32, distArr⟩, ⟨Dtype.f32, p3⟩,
              ⟨Dtype.f32, p2⟩⟩ := by
  unfold loadOne
  cases hl : dictLookup intrinsics_data cam_id with
  | none => simp
  | some int_data =>
    cases hk : int_data.K with
    | none => simp [hk]
    | some kArr =>
      cases hd : int_data.distortion with
      | none => simp [hk, hd]
      | some distArr =>
        cases h3 : obs_data.points_3d with
        | none => simp [hk, hd, h3]
        | some p3 =>
          cases h4 : obs_data.points_2d with
          | none => simp [hk, hd, h3, h4]
          | some p2 =>
            by_cases hlen : p3.length = p2.length
            · simp [hk, hd, h3, h4, NpMat.shape0, hlen]
              constructor
              · intro h; exact h.symm
              · intro h; exact h.symm
            · simp [hk, hd, h3, h4, NpMat.shape0, hlen]

/-- Splitting a successful `loadCameras` run at its first entry. -/
theorem loadCameras_cons_ok (intrinsics_data : IntrDoc) (cam_id : String)
    (obs_data : ObsEntry) (rest : List (String × ObsEntry))
    (l : List (String × CameraData))
    (h : loadCameras intrinsics_data ((cam_id, obs_data) :: rest) = Except.ok l) :
    ∃ l', loadCameras intrinsics_data rest = Except.ok l' ∧
      ((loadOne intrinsics_data cam_id obs_data = Except.ok none ∧ l = l') ∨
       (∃ entry, loadOne intrinsics_data cam_id obs_data = Except.ok (some entry) ∧
         l = (cam_id, entry) :: l')) := by
  unfold loadCameras at h
  cases ho : loadOne intrinsics_data cam_id obs_data with
  | error e => rw [ho] at h; simp at h
  | ok o =>
    cases o with
    | none =>
      rw [ho] at h
      exact ⟨l, h, Or.inl ⟨rfl, rfl⟩⟩
    | some entry =>
      rw [ho] at h
      cases hr : loadCameras intrinsics_data rest with
      | error e => rw [hr] at h; simp at h
      | ok l' =>
        rw [hr] at h
        simp at h
        exact ⟨l', rfl, Or.inr ⟨entry, rfl, h.symm⟩⟩

/-- A camera whose intrinsics are found and whose point fields are present
with matching counts is never silently skipped: `loadOne` either keeps it or
(if `K`/`distortion` is missing) raises. -/
theorem loadOne_ne_ok_none (intrinsics_data : IntrDoc) (cam_id : String)
    (obs_data : ObsEntry) (p3 p2 : List (List ℚ))
    (hsome : (dictLookup intrinsics_data cam_id).isSome = true)
    (h3 : obs_data.points_3d = some p3) (h4 : obs_data.points_2d = some p2)
    (hlen : p3.length = p2.length) :
    loadOne intrinsics_data cam_id obs_data ≠ Except.ok none := by
  unfold loadOne
  obtain ⟨int_data, hl⟩ := Option.isSome_iff_exists.mp hsome
  rw [hl]
  cases hk : int_data.K with
  | none => simp [hk]
  | some kArr =>
    cases hd : int_data.distortion with
    | none => simp [hk, hd]
    | some distArr =>
      rw [h3, h4]
      simp [hk, hd, NpMat.shape0, hlen]

/-- The key set of a successfully loaded mapping: a camera id is a key iff
some observation entry for it exists, its intrinsics are found, both point
fields are present, and the point counts agree. -/
theorem loadCameras_mem_keys (intrinsics_data : IntrDoc) :
    ∀ (oc : List (String × ObsEntry)) (l : List (String × CameraData)),
      loadCameras intrinsics_data oc = Except.ok l →
      ∀ c : String,
        (c ∈ l.map Prod.fst ↔
          ∃ oe p3 p2, (c, oe) ∈ oc ∧
            (dictLookup intrinsics_data c).isSome = true ∧
            oe.points_3d = some p3 ∧ oe.points_2d = some p2 ∧
            p3.length = p2.length) := by
  intro oc
  induction oc with
  | nil =>
    intro l h c
    unfold loadCameras at h
    simp at h
    subst h
    simp
  | cons hd rest ih =>
    obtain ⟨c', oe'⟩ := hd
    intro l h c
    obtain ⟨l', hrest, hcase⟩ := loadCameras_cons_ok _ _ _ _ _ h
    rcases hcase with ⟨hnone, hll⟩ | ⟨entry, hsomeE, hll⟩
    · rw [hll, ih l' hrest c]
      constructor
      · rintro ⟨oe, p3, p2, hmem, hs, h3, h4, hlen⟩
        exact ⟨oe, p3, p2, List.mem_cons_of_mem _ hmem, hs, h3, h4, hlen⟩
      · rintro ⟨oe, p3, p2, hmem, hs, h3, h4, hlen⟩
        rcases List.mem_cons.mp hmem with heq | hmem'
        · injection heq with h1 h2
          subst h1
          subst h2
          exact absurd hnone (loadOne_ne_ok_none _ _ _ p3 p2 hs h3 h4 hlen)
        · exact ⟨oe, p3, p2, hmem', hs, h3, h4, hlen⟩
    · rw [hll]
      simp only [List.map_cons, List.mem_cons]
      rw [ih l' hrest c]
      constructor
      · rintro (rfl | hr)
        · obtain ⟨int_data, kArr, distArr, p3, p2, hl, hk, hd2, h3, h4, hlen, hcd⟩ :=
            (loadOne_ok_some_iff _ _ _ _).mp hsomeE
          exact ⟨oe', p3, p2, Or.inl rfl, by simp [hl], h3, h4, hlen⟩
        · obtain ⟨oe, p3, p2, hmem, hs, h3, h4, hlen⟩ := hr
          exact ⟨oe, p3, p2, Or.inr hmem, hs, h3, h4, hlen⟩
      · rintro ⟨oe, p3, p2, hmem, hs, h3, h4, hlen⟩
        rcases hmem with heq | hmem'
        · injection heq with h1 h2
          exact Or.inl h1
        · exact Or.inr ⟨oe, p3, p2, hmem', hs, h3, h4, hlen⟩

/-- Every record in a successfully loaded mapping consists of float32
arrays, as built by the loader. -/
theorem loadCameras_dtype (intrinsics_data : IntrDoc) :
    ∀ (oc : List (String × ObsEntry)) (l : List (String × CameraData)),
      loadCameras intrinsics_data oc = Except.ok l →
      ∀ c cd, (c, cd) ∈ l →
        cd.K.dtype = Dtype.f32 ∧ cd.dist.dtype = Dtype.f32 ∧
        cd.points_3d.dtype = Dtype.f32 ∧ cd.points_2d.dtype = Dtype.f32 := by
  intro oc
  induction oc with
  | nil =>
    intro l h c cd hmem
    unfold loadCameras at h
    simp at h
    subst h
    simp at hmem
  | cons hd rest ih =>
    obtain ⟨c', oe'⟩ := hd
    intro l h c cd hmem
    obtain ⟨l', hrest, hcase⟩ := loadCameras_cons_ok _ _ _ _ _ h
    rcases hcase with ⟨hnone, hll⟩ | ⟨entry, hsomeE, hll⟩
    · rw [hll] at hmem
      exact ih l' hrest c cd hmem
    · rw [hll] at hmem
      rcases List.mem_cons.mp hmem with heq | hmem'
      · obtain ⟨int_data, kArr, distArr, p3, p2, hl, hk, hd2, h3, h4, hlen, hcd⟩ :=
          (loadOne_ok_some_iff _ _ _ _).mp hsomeE
        injection heq with h1 h2
        subst h2
        subst hcd
        exact ⟨rfl, rfl, rfl, rfl⟩
      · exact ih l' hrest c cd hmem'

/-- The keys of a successfully loaded mapping form an order-preserving
subsequence of the observation document's camera keys. -/
theorem loadCameras_keys_sublist (intrinsics_data : IntrDoc) :
    ∀ (oc : List (String × ObsEntry)) (l : List (String × CameraData)),
      loadCameras intrinsics_data oc = Except.ok l →
      List.Sublist (l.map Prod.fst) (oc.map Prod.fst) := by
  intro oc
  induction oc with
  | nil =>
    intro l h
    unfold loadCameras at h
    simp at h
    subst h
    simp
  | cons hd rest ih =>
    obtain ⟨c', oe'⟩ := hd
    intro l h
    obtain ⟨l', hrest, hcase⟩ := loadCameras_cons_ok _ _ _ _ _ h
    rcases hcase with ⟨hnone, hll⟩ | ⟨entry, hsomeE, hll⟩
    · rw [hll]
      exact List.Sublist.cons _ (ih l' hrest)
    · rw [hll]
      exact List.Sublist.cons₂ _ (ih l' hrest)

/-- The loop body of `main` keeps the camera id as the entry key. -/
theorem solveOne_fst (cv : CV2) (cam_id : String) (cam_data : CameraData) :
    (solveOne cv cam_id cam_data).1 = cam_id := by
  unfold solveOne
  cases calculate_extrinsics cv cam_data <;> rfl

/-- A report is written exactly when the loader returns a nonempty mapping,
and it is the per-camera solve of each loaded entry, in order. -/
theorem main_ok_some_iff (cv : CV2) (fIntr : JsonFile IntrDoc)
    (fObs : JsonFile ObsDoc) (out : OutputDoc) :
    main cv fIntr fObs = Except.ok (some out) ↔
      ∃ acd, load_calibration_data fIntr fObs = Except.ok acd ∧ acd ≠ [] ∧
        out = ⟨acd.map (fun p => solveOne cv p.1 p.2)⟩ := by
  unfold main
  cases h : load_calibration_data fIntr fObs with
  | error e => simp
  | ok acd =>
    by_cases he : acd = []
    · subst he
      simp
    · simp [List.isEmpty_iff, he]
      exact eq_comm

/-- The output keys are exactly the loaded keys, in order. -/
theorem outputKeys_eq (cv : CV2) (acd : List (String × CameraData)) :
    (acd.map (fun p => solveOne cv p.1 p.2)).map Prod.fst = acd.map Prod.fst := by
  simp [List.map_map, Function.comp_def, solveOne_fst]

/-! Helper lemmas about the solver. -/

/-- Spelling out the shape guard of the slice assignments. -/
theorem is3x3_iff (rows : List (List ℚ)) :
    is3x3 rows = true ↔ rows.length = 3 ∧ ∀ r ∈ rows, r.length = 3 := by
  simp [is3x3, List.all_eq_true]

/-- Forward characterization of a successful `calculate_extrinsics` call:
the PnP solve reported success, Rodrigues produced the rotation matrix, the
shapes fit, and the result is exactly the four serialized representations. -/
theorem calculate_extrinsics_ok_elim (cv : CV2) (camera_data : CameraData)
    (res : ExtrinsicsResult)
    (h : calculate_extrinsics cv camera_data = Except.ok res) :
    ∃ rvec tvec R_matrix,
      cv.solvePnP camera_data.points_3d camera_data.points_2d camera_data.K
          camera_data.dist PnPFlag.SOLVEPNP_ITERATIVE = Except.ok (true, rvec, tvec) ∧
      cv.rodrigues rvec = Except.ok R_matrix ∧
      is3x3 R_matrix.rows = true ∧
      tvec.flatten.data.length = 3 ∧
      res = { rotation_matrix_R := R_matrix.tolist
              translation_vector_t := tvec.flatten.tolist
              T_homogeneous_matrix_4x4 := (assembleT R_matrix tvec.flatten).tolist
              R_Rodrigues_vector := rvec.flatten.tolist } := by
  unfold calculate_extrinsics at h
  split at h
  · simp at h
  next success rvec tvec hps =>
    split at h
    next hsucc =>
      subst hsucc
      split at h
      · simp at h
      next R_matrix hrod =>
        split at h
        next hsh =>
          simp only [Bool.and_eq_true, beq_iff_eq] at hsh
          obtain ⟨h1, h2⟩ := hsh
          simp only [Except.ok.injEq] at h
          exact ⟨rvec, tvec, R_matrix, hps, hrod, h1, h2, h.symm⟩
        · simp at h
    · simp at h

/-- Evaluating the two slice assignments on fully destructured inputs. -/
theorem assembleT_rows_eq (R_matrix : NpMat) (tflat : NpVec)
    (r00 r01 r02 r10 r11 r12 r20 r21 r22 x y z : ℚ)
    (hR : R_matrix.rows = [[r00, r01, r02], [r10, r11, r12], [r20, r21, r22]])
    (ht : tflat.data = [x, y, z]) :
    assembleT R_matrix tflat =
      ⟨Dtype.f64,
        [[r00, r01, r02, x], [r10, r11, r12, y], [r20, r21, r22, z],
         [0, 0, 0, 1]]⟩ := by
  unfold assembleT setTopLeft3x3 setTopRightCol identity4
  rw [hR, ht]
  rfl

/-- Fully destructured form of a successful solve: the rotation matrix has
three rows of three entries, the flattened translation has three entries,
and all four serialized representations are spelled out entrywise. -/
theorem calculate_extrinsics_ok_destruct (cv : CV2) (camera_data : CameraData)
    (res : ExtrinsicsResult)
    (h : calculate_extrinsics cv camera_data = Except.ok res) :
    ∃ (rvec tvec R_matrix : NpMat) (r00 r01 r02 r10 r11 r12 r20 r21 r22 x y z : ℚ),
      cv.solvePnP camera_data.points_3d camera_data.points_2d camera_data.K
          camera_data.dist PnPFlag.SOLVEPNP_ITERATIVE = Except.ok (true, rvec, tvec) ∧
      cv.rodrigues rvec = Except.ok R_matrix ∧
      R_matrix.rows = [[r00, r01, r02], [r10, r11, r12], [r20, r21, r22]] ∧
      tvec.flatten.data = [x, y, z] ∧
      res.rotation_matrix_R = R_matrix.tolist ∧
      res.translation_vector_t = tvec.flatten.tolist ∧
      res.R_Rodrigues_vector = rvec.flatten.tolist ∧
      res.rotation_matrix_R =
        [[⟨Dtype.f64, r00⟩, ⟨Dtype.f64, r01⟩, ⟨Dtype.f64, r02⟩],
         [⟨Dtype.f64, r10⟩, ⟨Dtype.f64, r11⟩, ⟨Dtype.f64, r12⟩],
         [⟨Dtype.f64, r20⟩, ⟨Dtype.f64, r21⟩, ⟨Dtype.f64, r22⟩]] ∧
      res.translation_vector_t =
        [⟨Dtype.f64, x⟩, ⟨Dtype.f64, y⟩, ⟨Dtype.f64, z⟩] ∧
      res.T_homogeneous_matrix_4x4 =
        [[⟨Dtype.f64, r00⟩, ⟨Dtype.f64, r01⟩, ⟨Dtype.f64, r02⟩, ⟨Dtype.f64, x⟩],
         [⟨Dtype.f64, r10⟩, ⟨Dtype.f64, r11⟩, ⟨Dtype.f64, r12⟩, ⟨Dtype.f64, y⟩],
         [⟨Dtype.f64, r20⟩, ⟨Dtype.f64, r21⟩, ⟨Dtype.f64, r22⟩, ⟨Dtype.f64, z⟩],
         [⟨Dtype.f64, 0⟩, ⟨Dtype.f64, 0⟩, ⟨Dtype.f64, 0⟩, ⟨Dtype.f64, 1⟩]] := by
  obtain ⟨rvec, tvec, R_matrix, hps, hrod, h33, hlen3, hres⟩ :=
    calculate_extrinsics_ok_elim cv camera_data res h
  obtain ⟨hrl, hall⟩ := (is3x3_iff R_matrix.rows).mp h33
  obtain ⟨a, b, c, habc⟩ := List.length_eq_three.mp hrl
  have ha : a.length = 3 := hall a (by rw [habc]; simp)
  have hb : b.length = 3 := hall b (by rw [habc]; simp)
  have hc : c.length = 3 := hall c (by rw [habc]; simp)
  obtain ⟨r00, r01, r02, ha2⟩ := List.length_eq_three.mp ha
  obtain ⟨r10, r11, r12, hb2⟩ := List.length_eq_three.mp hb
  obtain ⟨r20, r21, r22, hc2⟩ := List.length_eq_three.mp hc
  obtain ⟨x, y, z, ht2⟩ := List.length_eq_three.mp hlen3
  subst ha2
  subst hb2
  subst hc2
  have hT := assembleT_rows_eq R_matrix tvec.flatten
    r00 r01 r02 r10 r11 r12 r20 r21 r22 x y z habc ht2
  subst hres
  refine ⟨rvec, tvec, R_matrix, r00, r01, r02, r10, r11, r12, r20, r21, r22, x, y, z,
    hps, hrod, habc, ht2, rfl, rfl, rfl, ?_, ?_, ?_⟩
  · simp [NpMat.tolist, habc]
  · simp [NpVec.tolist, ht2]
  · rw [hT]
    simp [NpMat.tolist]

/-- Claim C3 fails as stated: at a concrete input on which the PnP solve
reports failure, the raised message is "cv2.solvePnP failed to converge.",
not "PnP failed to converge" as the claim has it. -/
theorem C3_counterexample :
    calculate_extrinsics cvFail cd1 =
      Except.error "cv2.solvePnP failed to converge." ∧
    "cv2.solvePnP failed to converge." ≠ "PnP failed to converge" :=
  ⟨rfl, by decide⟩

/-- Claim C3 (amended): whenever the underlying PnP solve reports failure
(success flag false), the solver raises with the message
"cv2.solvePnP failed to converge.", and the orchestrator loop turns this
into an error entry for that camera only. -/
theorem C3_nonconvergence_message (cv : CV2) (camera_data : CameraData)
    (rvec tvec : NpMat)
    (h : cv.solvePnP camera_data.points_3d camera_data.points_2d camera_data.K
        camera_data.dist PnPFlag.SOLVEPNP_ITERATIVE = Except.ok (false, rvec, tvec)) :
    calculate_extrinsics cv camera_data =
      Except.error "cv2.solvePnP failed to converge." ∧
    ∀ cam_id, solveOne cv cam_id camera_data =
      (cam_id, CamResult.err "cv2.solvePnP failed to converge.") := by
  have hmain : calculate_extrinsics cv camera_data =
      Except.error "cv2.solvePnP failed to converge." := by
    unfold calculate_extrinsics
    rw [h]
    rfl
  refine ⟨hmain, fun cam_id => ?_⟩
  unfold solveOne
  rw [hmain]

/-- Witness for C3 (amended) at the concrete failing instance. -/
theorem C3_witness :
    calculate_extrinsics cvFail cd1 =
      Except.error "cv2.solvePnP failed to converge." ∧
    ∀ cam_id, solveOne cvFail cam_id cd1 =
      (cam_id, CamResult.err "cv2.solvePnP failed to converge.") :=
  C3_nonconvergence_message cvFail cd1
    ⟨Dtype.f64, [[0], [0], [0]]⟩ ⟨Dtype.f64, [[0], [0], [0]]⟩ rfl

/-- Claim C4: for every successful solve, the returned 4x4 homogeneous
matrix has bottom row exactly [0,0,0,1], its top-left 3x3 block equals the
returned rotation matrix entry for entry, and its top-right column equals
the returned translation vector. -/
theorem C4_homogeneous_matrix_structure (cv : CV2) (camera_data : CameraData)
    (res : ExtrinsicsResult)
    (h : calculate_extrinsics cv camera_data = Except.ok res) :
    res.T_homogeneous_matrix_4x4.length = 4 ∧
    res.T_homogeneous_matrix_4x4.getD 3 [] =
      [⟨Dtype.f64, 0⟩, ⟨Dtype.f64, 0⟩, ⟨Dtype.f64, 0⟩, ⟨Dtype.f64, 1⟩] ∧
    ∀ i, i < 3 →
      (res.T_homogeneous_matrix_4x4.getD i []).take 3 =
        res.rotation_matrix_R.getD i [] ∧
      (res.T_homogeneous_matrix_4x4.getD i []).getD 3 ⟨Dtype.f64, 0⟩ =
        res.translation_vector_t.getD i ⟨Dtype.f64, 0⟩ := by
  obtain ⟨rvec, tvec, R_matrix, r00, r01, r02, r10, r11, r12, r20, r21, r22, x, y, z,
    hps, hrod, hrows, ht, hR, hTv, hRod, hRc, hTc, hTm⟩ :=
    calculate_extrinsics_ok_destruct cv camera_data res h
  rw [hTm, hRc, hTc]
  refine ⟨rfl, rfl, ?_⟩
  intro i hi
  interval_cases i <;> exact ⟨rfl, rfl⟩

/-- Witness for C4 at the concrete converging instance. -/
theorem C4_witness :
    res1.T_homogeneous_matrix_4x4.length = 4 ∧
    res1.T_homogeneous_matrix_4x4.getD 3 [] =
      [⟨Dtype.f64, 0⟩, ⟨Dtype.f64, 0⟩, ⟨Dtype.f64, 0⟩, ⟨Dtype.f64, 1⟩] ∧
    ∀ i, i < 3 →
      (res1.T_homogeneous_matrix_4x4.getD i []).take 3 =
        res1.rotation_matrix_R.getD i [] ∧
      (res1.T_homogeneous_matrix_4x4.getD i []).getD 3 ⟨Dtype.f64, 0⟩ =
        res1.translation_vector_t.getD i ⟨Dtype.f64, 0⟩ :=
  C4_homogeneous_matrix_structure cvOk cd1 res1 rfl

/-- Claim C10: the four returned representations are mutually consistent by
construction: the serialized Rodrigues vector flattens the same `rvec` from
which the rotation matrix was derived, and the serialized translation
flattens the same `tvec` embedded in the homogeneous matrix's last column. -/
theorem C10_representations_consistent (cv : CV2) (camera_data : CameraData)
    (res : ExtrinsicsResult)
    (h : calculate_extrinsics cv camera_data = Except.ok res) :
    ∃ rvec tvec R_matrix,
      cv.solvePnP camera_data.points_3d camera_data.points_2d camera_data.K
          camera_data.dist PnPFlag.SOLVEPNP_ITERATIVE = Except.ok (true, rvec, tvec) ∧
      cv.rodrigues rvec = Except.ok R_matrix ∧
      res.R_Rodrigues_vector = rvec.flatten.tolist ∧
      res.rotation_matrix_R = R_matrix.tolist ∧
      res.translation_vector_t = tvec.flatten.tolist ∧
      ∀ i, i < 3 →
        (res.T_homogeneous_matrix_4x4.getD i []).getD 3 ⟨Dtype.f64, 0⟩ =
          tvec.flatten.tolist.getD i ⟨Dtype.f64, 0⟩ := by
  obtain ⟨rvec, tvec, R_matrix, r00, r01, r02, r10, r11, r12, r20, r21, r22, x, y, z,
    hps, hrod, hrows, ht, hR, hTv, hRod, hRc, hTc, hTm⟩ :=
    calculate_extrinsics_ok_destruct cv camera_data res h
  refine ⟨rvec, tvec, R_matrix, hps, hrod, hRod, hR, hTv, ?_⟩
  intro i hi
  rw [hTm, ← hTv, hTc]
  interval_cases i <;> rfl

/-- Witness for C10 at the concrete converging instance. -/
theorem C10_witness :
    ∃ rvec tvec R_matrix,
      cvOk.solvePnP cd1.points_3d cd1.points_2d cd1.K cd1.dist
          PnPFlag.SOLVEPNP_ITERATIVE = Except.ok (true, rvec, tvec) ∧
      cvOk.rodrigues rvec = Except.ok R_matrix ∧
      res1.R_Rodrigues_vector = rvec.flatten.tolist ∧
      res1.rotation_matrix_R = R_matrix.tolist ∧
      res1.translation_vector_t = tvec.flatten.tolist ∧
      ∀ i, i < 3 →
        (res1.T_homogeneous_matrix_4x4.getD i []).getD 3 ⟨Dtype.f64, 0⟩ =
          tvec.flatten.tolist.getD i ⟨Dtype.f64, 0⟩ :=
  C10_representations_consistent cvOk cd1 res1 rfl

/-- Every element of a serialized 2-D array is a 64-bit (Python) float. -/
theorem tolist_dtype_mat (m : NpMat) :
    ∀ row ∈ m.tolist, ∀ s ∈ row, s.dtype = Dtype.f64 := by
  intro row hrow s hs
  simp only [NpMat.tolist, List.mem_map] at hrow
  obtain ⟨r, hr, hrr⟩ := hrow
  subst hrr
  simp only [List.mem_map] at hs
  obtain ⟨v, hv, hvv⟩ := hs
  rw [← hvv]

/-- Every element of a serialized 1-D array is a 64-bit (Python) float. -/
theorem tolist_dtype_vec (v : NpVec) :
    ∀ s ∈ v.tolist, s.dtype = Dtype.f64 := by
  intro s hs
  simp only [NpVec.tolist, List.mem_map] at hs
  obtain ⟨x, hx, hxx⟩ := hs
  rw [← hxx]

/-- Claim C1: when the run produced an output document, a camera id is a key
of its `cameras` mapping iff that id occurs in the observations document's
`cameras` object and in the intrinsics document with equal numbers of 3D and
2D points; a camera excluded by load-time validation therefore appears
nowhere, while a loaded camera whose solve raises still appears, as an error
entry. -/
theorem C1_output_key_invariant (cv : CV2)
    (intrinsics_data : IntrDoc) (observations_data : ObsDoc)
    (oc : List (String × ObsEntry)) (acd : List (String × CameraData))
    (out : OutputDoc)
    (hoc : observations_data.cameras = some oc)
    (hload : load_calibration_data (JsonFile.parsed intrinsics_data)
      (JsonFile.parsed observations_data) = Except.ok acd)
    (hmain : main cv (JsonFile.parsed intrinsics_data)
      (JsonFile.parsed observations_data) = Except.ok (some out)) :
    (∀ c : String,
      c ∈ out.cameras.map Prod.fst ↔
        ∃ oe p3 p2, (c, oe) ∈ oc ∧
          (dictLookup intrinsics_data c).isSome = true ∧
          oe.points_3d = some p3 ∧ oe.points_2d = some p2 ∧
          p3.length = p2.length) ∧
    (∀ c cd e, (c, cd) ∈ acd → calculate_extrinsics cv cd = Except.error e →
      (c, CamResult.err e) ∈ out.cameras) := by
  obtain ⟨acd2x, hload2, hne, hout⟩ :=
    (main_ok_some_iff cv (JsonFile.parsed intrinsics_data)
      (JsonFile.parsed observations_data) out).mp hmain
  rw [hload] at hload2
  injection hload2 with hacd
  subst hacd
  have hlc : loadCameras intrinsics_data oc = Except.ok acd := by
    have hlc0 : loadCameras intrinsics_data (observations_data.cameras.getD []) =
        Except.ok acd := hload
    rw [hoc] at hlc0
    simpa using hlc0
  constructor
  · intro c
    rw [hout]
    show c ∈ (List.map (fun p => solveOne cv p.1 p.2) acd).map Prod.fst ↔ _
    rw [outputKeys_eq]
    exact loadCameras_mem_keys intrinsics_data oc acd hlc c
  · intro c cd e hmem hcalc
    rw [hout]
    have hsv : solveOne cv c cd = (c, CamResult.err e) := by
      unfold solveOne
      rw [hcalc]
    show (c, CamResult.err e) ∈ List.map (fun p => solveOne cv p.1 p.2) acd
    rw [← hsv]
    exact List.mem_map_of_mem _ hmem

/-- Witness for C1 on the concrete one-camera example run. -/
theorem C1_witness :
    (∀ c : String,
      c ∈ out1.cameras.map Prod.fst ↔
        ∃ oe p3 p2, (c, oe) ∈ oc0 ∧
          (dictLookup intr0 c).isSome = true ∧
          oe.points_3d = some p3 ∧ oe.points_2d = some p2 ∧
          p3.length = p2.length) ∧
    (∀ c cd e, (c, cd) ∈ acd0 → calculate_extrinsics cvOk cd = Except.error e →
      (c, CamResult.err e) ∈ out1.cameras) :=
  C1_output_key_invariant cvOk intr0 obs0 oc0 acd0 out1 rfl rfl rfl

/-- Claim C2: the orchestrator maps every loaded camera to its own solve
result, storing an error entry under the camera id when the solve raises and
a success entry otherwise; the batch always yields a report (no abort). -/
theorem C2_per_camera_isolation (cv : CV2) (fIntr : JsonFile IntrDoc)
    (fObs : JsonFile ObsDoc) (acd : List (String × CameraData))
    (hload : load_calibration_data fIntr fObs = Except.ok acd)
    (hne : acd ≠ []) :
    main cv fIntr fObs =
      Except.ok (some ⟨acd.map (fun p => solveOne cv p.1 p.2)⟩) ∧
    ∀ c cd, (c, cd) ∈ acd →
      (∀ e, calculate_extrinsics cv cd = Except.error e →
        (c, CamResult.err e) ∈ acd.map (fun p => solveOne cv p.1 p.2)) ∧
      (∀ r, calculate_extrinsics cv cd = Except.ok r →
        (c, CamResult.ok r) ∈ acd.map (fun p => solveOne cv p.1 p.2)) := by
  refine ⟨(main_ok_some_iff cv fIntr fObs _).mpr ⟨acd, hload, hne, rfl⟩, ?_⟩
  intro c cd hmem
  constructor
  · intro e hcalc
    have hsv : solveOne cv c cd = (c, CamResult.err e) := by
      unfold solveOne
      rw [hcalc]
    rw [← hsv]
    exact List.mem_map_of_mem _ hmem
  · intro r hcalc
    have hsv : solveOne cv c cd = (c, CamResult.ok r) := by
      unfold solveOne
      rw [hcalc]
    rw [← hsv]
    exact List.mem_map_of_mem _ hmem

/-- Witness for C2 on the two-camera run where `cam2` fails to converge. -/
theorem C2_witness :
    main cvSel (JsonFile.parsed intr2) (JsonFile.parsed obs2) =
      Except.ok (some ⟨acd2.map (fun p => solveOne cvSel p.1 p.2)⟩) ∧
    ∀ c cd, (c, cd) ∈ acd2 →
      (∀ e, calculate_extrinsics cvSel cd = Except.error e →
        (c, CamResult.err e) ∈ acd2.map (fun p => solveOne cvSel p.1 p.2)) ∧
      (∀ r, calculate_extrinsics cvSel cd = Except.ok r →
        (c, CamResult.ok r) ∈ acd2.map (fun p => solveOne cvSel p.1 p.2)) :=
  C2_per_camera_isolation cvSel (JsonFile.parsed intr2) (JsonFile.parsed obs2)
    acd2 rfl (by decide)

/-- Claim C5: a missing file or invalid JSON makes the loader return an
empty mapping and the orchestrator exit early without writing output;
conversely a nonempty load always leads to a written report. -/
theorem C5_io_errors (cv : CV2) (fIntr : JsonFile IntrDoc)
    (fObs : JsonFile ObsDoc) :
    ((fIntr = JsonFile.absent ∨ fIntr = JsonFile.invalidJson ∨
      fObs = JsonFile.absent ∨ fObs = JsonFile.invalidJson) →
      load_calibration_data fIntr fObs = Except.ok [] ∧
      main cv fIntr fObs = Except.ok none) ∧
    ∀ acd, load_calibration_data fIntr fObs = Except.ok acd → acd ≠ [] →
      main cv fIntr fObs =
        Except.ok (some ⟨acd.map (fun p => solveOne cv p.1 p.2)⟩) := by
  constructor
  · intro hbad
    have hl : load_calibration_data fIntr fObs = Except.ok [] := by
      rcases hbad with h | h | h | h
      · subst h; cases fObs <;> rfl
      · subst h; cases fObs <;> rfl
      · subst h; cases fIntr <;> rfl
      · subst h; cases fIntr <;> rfl
    refine ⟨hl, ?_⟩
    unfold main
    rw [hl]
    rfl
  · intro acd hload hne
    exact (main_ok_some_iff cv fIntr fObs _).mpr ⟨acd, hload, hne, rfl⟩

/-- Witness for C5: an absent intrinsics file yields no output, the example
pair of documents yields a written report. -/
theorem C5_witness :
    (load_calibration_data JsonFile.absent (JsonFile.parsed obs0) =
       Except.ok [] ∧
     main cvOk JsonFile.absent (JsonFile.parsed obs0) = Except.ok none) ∧
    main cvOk (JsonFile.parsed intr0) (JsonFile.parsed obs0) =
      Except.ok (some ⟨acd0.map (fun p => solveOne cvOk p.1 p.2)⟩) :=
  ⟨(C5_io_errors cvOk JsonFile.absent (JsonFile.parsed obs0)).1 (Or.inl rfl),
   (C5_io_errors cvOk (JsonFile.parsed intr0) (JsonFile.parsed obs0)).2
     acd0 rfl (by decide)⟩

/-- Claim C6: every loaded camera record consists of float32 arrays, while
the assembled homogeneous matrix is a float64 array and all four numeric
lists returned by a successful solve hold 64-bit floats. -/
theorem C6_precision_contract (cv : CV2)
    (intrinsics_data : IntrDoc) (observations_data : ObsDoc)
    (acd : List (String × CameraData)) (c : String) (cd : CameraData)
    (res : ExtrinsicsResult)
    (hload : load_calibration_data (JsonFile.parsed intrinsics_data)
      (JsonFile.parsed observations_data) = Except.ok acd)
    (hmem : (c, cd) ∈ acd)
    (hcalc : calculate_extrinsics cv cd = Except.ok res) :
    (cd.K.dtype = Dtype.f32 ∧ cd.dist.dtype = Dtype.f32 ∧
     cd.points_3d.dtype = Dtype.f32 ∧ cd.points_2d.dtype = Dtype.f32) ∧
    (∃ T_matrix : NpMat, T_matrix.dtype = Dtype.f64 ∧
      res.T_homogeneous_matrix_4x4 = T_matrix.tolist) ∧
    (∀ row ∈ res.rotation_matrix_R, ∀ s ∈ row, s.dtype = Dtype.f64) ∧
    (∀ s ∈ res.translation_vector_t, s.dtype = Dtype.f64) ∧
    (∀ row ∈ res.T_homogeneous_matrix_4x4, ∀ s ∈ row, s.dtype = Dtype.f64) ∧
    (∀ s ∈ res.R_Rodrigues_vector, s.dtype = Dtype.f64) := by
  constructor
  · have hlc : loadCameras intrinsics_data (observations_data.cameras.getD []) =
        Except.ok acd := hload
    exact loadCameras_dtype intrinsics_data _ acd hlc c cd hmem
  · obtain ⟨rvec, tvec, R_matrix, hps, hrod, h33, hlen3, hres⟩ :=
      calculate_extrinsics_ok_elim cv cd res hcalc
    subst hres
    exact ⟨⟨assembleT R_matrix tvec.flatten, rfl, rfl⟩,
      tolist_dtype_mat R_matrix, tolist_dtype_vec tvec.flatten,
      tolist_dtype_mat (assembleT R_matrix tvec.flatten),
      tolist_dtype_vec rvec.flatten⟩

/-- Witness for C6 on the concrete one-camera example run. -/
theorem C6_witness :
    (cd1.K.dtype = Dtype.f32 ∧ cd1.dist.dtype = Dtype.f32 ∧
     cd1.points_3d.dtype = Dtype.f32 ∧ cd1.points_2d.dtype = Dtype.f32) ∧
    (∃ T_matrix : NpMat, T_matrix.dtype = Dtype.f64 ∧
      res1.T_homogeneous_matrix_4x4 = T_matrix.tolist) ∧
    (∀ row ∈ res1.rotation_matrix_R, ∀ s ∈ row, s.dtype = Dtype.f64) ∧
    (∀ s ∈ res1.translation_vector_t, s.dtype = Dtype.f64) ∧
    (∀ row ∈ res1.T_homogeneous_matrix_4x4, ∀ s ∈ row, s.dtype = Dtype.f64) ∧
    (∀ s ∈ res1.R_Rodrigues_vector, s.dtype = Dtype.f64) :=
  C6_precision_contract cvOk intr0 obs0 acd0 "cam1" cd1 res1 rfl
    (by decide) rfl

/-- Claim C7: the loader inserts cameras in the observations document's key
order, so the loaded keys are an order-preserving subsequence of that order,
and the output document's keys follow the loaded order exactly. -/
theorem C7_order_preservation (cv : CV2) (fIntr : JsonFile IntrDoc)
    (observations_data : ObsDoc) (oc : List (String × ObsEntry))
    (acd : List (String × CameraData)) (out : OutputDoc)
    (hoc : observations_data.cameras = some oc)
    (hload : load_calibration_data fIntr (JsonFile.parsed observations_data) =
      Except.ok acd)
    (hmain : main cv fIntr (JsonFile.parsed observations_data) =
      Except.ok (some out)) :
    List.Sublist (acd.map Prod.fst) (oc.map Prod.fst) ∧
    out.cameras.map Prod.fst = acd.map Prod.fst := by
  constructor
  · cases fIntr with
    | parsed intrinsics_data =>
      have hlc : loadCameras intrinsics_data oc = Except.ok acd := by
        have hlc0 : loadCameras intrinsics_data
            (observations_data.cameras.getD []) = Except.ok acd := hload
        rw [hoc] at hlc0
        simpa using hlc0
      exact loadCameras_keys_sublist intrinsics_data oc acd hlc
    | absent =>
      have h0 : Except.ok ([] : List (String × CameraData)) = Except.ok acd :=
        hload
      injection h0 with h0
      subst h0
      simp
    | invalidJson =>
      have h0 : Except.ok ([] : List (String × CameraData)) = Except.ok acd :=
        hload
      injection h0 with h0
      subst h0
      simp
  · obtain ⟨acd2x, hload2, hne, hout⟩ :=
      (main_ok_some_iff cv fIntr (JsonFile.parsed observations_data) out).mp hmain
    rw [hload] at hload2
    injection hload2 with hacd
    subst hacd
    rw [hout]
    exact outputKeys_eq cv acd

/-- Witness for C7 on the concrete one-camera example run. -/
theorem C7_witness :
    List.Sublist (acd0.map Prod.fst) (oc0.map Prod.fst) ∧
    out1.cameras.map Prod.fst = acd0.map Prod.fst :=
  C7_order_preservation cvOk (JsonFile.parsed intr0) obs0 oc0 acd0 out1
    rfl rfl rfl

/-- Claim C8: an observations document without a top-level `cameras` key is
treated as holding zero cameras: the loader returns an empty mapping without
raising and the program exits early without writing output. -/
theorem C8_no_cameras_key (cv : CV2) (fIntr : JsonFile IntrDoc)
    (observations_data : ObsDoc)
    (h : observations_data.cameras = none) :
    load_calibration_data fIntr (JsonFile.parsed observations_data) =
      Except.ok [] ∧
    main cv fIntr (JsonFile.parsed observations_data) = Except.ok none := by
  have hl : load_calibration_data fIntr (JsonFile.parsed observations_data) =
      Except.ok [] := by
    cases fIntr with
    | parsed intrinsics_data =>
      show loadCameras intrinsics_data (observations_data.cameras.getD []) =
        Except.ok []
      rw [h]
      rfl
    | absent => rfl
    | invalidJson => rfl
  refine ⟨hl, ?_⟩
  unfold main
  rw [hl]
  rfl

/-- Witness for C8 on a concrete cameras-less document. -/
theorem C8_witness :
    load_calibration_data (JsonFile.parsed intr0) (JsonFile.parsed obsNone) =
      Except.ok [] ∧
    main cvOk (JsonFile.parsed intr0) (JsonFile.parsed obsNone) =
      Except.ok none :=
  C8_no_cameras_key cvOk (JsonFile.parsed intr0) obsNone rfl

/-- Claim C9: for valid-JSON inputs in which a camera id occurs in both
documents but its intrinsics entry lacks `K` or `distortion`, or its
observation entry lacks `points_3d` or `points_2d`, the loader raises an
uncaught exception and the whole run aborts with it (no output document),
unlike the per-camera isolation of solve-time exceptions. -/
theorem C9_missing_field_aborts :
    (load_calibration_data (JsonFile.parsed intrNoK) (JsonFile.parsed obs0) =
       Except.error "KeyError: K" ∧
     main cvOk (JsonFile.parsed intrNoK) (JsonFile.parsed obs0) =
       Except.error "KeyError: K") ∧
    (load_calibration_data (JsonFile.parsed intrNoDist) (JsonFile.parsed obs0) =
       Except.error "KeyError: distortion" ∧
     main cvOk (JsonFile.parsed intrNoDist) (JsonFile.parsed obs0) =
       Except.error "KeyError: distortion") ∧
    (load_calibration_data (JsonFile.parsed intr0) (JsonFile.parsed obsNoP3) =
       Except.error "KeyError: points_3d" ∧
     main cvOk (JsonFile.parsed intr0) (JsonFile.parsed obsNoP3) =
       Except.error "KeyError: points_3d") ∧
    (load_calibration_data (JsonFile.parsed intr0) (JsonFile.parsed obsNoP2) =
       Except.error "KeyError: points_2d" ∧
     main cvOk (JsonFile.parsed intr0) (JsonFile.parsed obsNoP2) =
       Except.error "KeyError: points_2d") :=
  ⟨⟨rfl, rfl⟩, ⟨rfl, rfl⟩, ⟨rfl, rfl⟩, ⟨rfl, rfl⟩⟩

end CalibrateExtrinsics
